import Mathlib

/-!
Verification of the transcription pipeline of `streamlit_app.py`
(TH3710/whisper-transcription).

The pipeline core is embedded shallowly:

* `apply_smart_corrections` — the ordered regex rewrite table, embedded via a
  small backtracking substitution engine covering exactly the regex constructs
  the source patterns use (`\b`, `\w+`, `\s+`, literals, `$`, capture groups,
  group references in replacements).
* `enhance_audio_quality` — noise reduction (external call, a parameter),
  amplitude normalization and 3-sample smoothing, over rationals; the value
  `none : NFloat` marks a non-finite float (NaN/Inf) produced by dividing by
  zero, since numpy float division by zero yields NaN/Inf with a warning and
  does not raise.
* `optimize_whisper_options`, `calculate_quality_score`, and the result
  aggregation of `transcribe_audio_ultra`.

Python conventions carried over: a `dict.get(k, d)` read of a possibly missing
key becomes `Option.getD`; a call that may raise becomes an `Option`-valued
parameter (`none` = the call raised); an exception caught by `except` selects
the fallback branch. Wall-clock fields (`processing_time`, `timestamp`) and
the temporary-file plumbing carry no claim content and are not modelled.
-/

/-- Whitespace per Python: the character set accepted by `str.isspace`, which
is also what `str.strip`, no-argument `str.split`, and the regex class `\s`
use on `str` patterns. -/
def isPySpace (c : Char) : Bool :=
  c = ' ' || c = '\t' || c = '\n' || c = '\r' || c = '\x0b' || c = '\x0c' ||
  ('\x1c' ≤ c && c ≤ '\x1f') || c = '\x85' || c = '\xa0' || c = '\u1680' ||
  ('\u2000' ≤ c && c ≤ '\u200a') || c = '\u2028' || c = '\u2029' ||
  c = '\u202f' || c = '\u205f' || c = '\u3000'

/-- Word characters per Python's regex class `\w` (Unicode alphanumerics and
underscore), restricted to the character ranges that can occur in this
program's rule literals and inputs: ASCII alphanumerics, underscore, hiragana,
katakana (including iteration/prolongation marks, which are alphanumeric), and
the CJK unified ideographs. Punctuation such as `、` (U+3001), `。` (U+3002)
and the ideographic space U+3000 are not word characters, matching Python. -/
def isWordChar (c : Char) : Bool :=
  ('a' ≤ c && c ≤ 'z') || ('A' ≤ c && c ≤ 'Z') || ('0' ≤ c && c ≤ '9') ||
  c = '_' ||
  ('ぁ' ≤ c && c ≤ 'ゖ') || ('ゝ' ≤ c && c ≤ 'ゟ') ||
  ('ァ' ≤ c && c ≤ 'ヺ') || ('ー' ≤ c && c ≤ 'ヿ') ||
  ('一' ≤ c && c ≤ '鿿')

/-- `str.strip()`: drop Python whitespace from both ends. -/
def pyStrip (s : String) : String :=
  String.mk (((s.data.dropWhile isPySpace).reverse.dropWhile isPySpace).reverse)

/-- Helper for `pySplit`: split a character list at runs of Python whitespace,
accumulating the current word in reverse. -/
def pySplitAux : List Char → List Char → List String
  | [], cur => if cur.isEmpty then [] else [String.mk cur.reverse]
  | c :: cs, cur =>
    if isPySpace c then
      if cur.isEmpty then pySplitAux cs []
      else String.mk cur.reverse :: pySplitAux cs []
    else pySplitAux cs (c :: cur)

/-- `str.split()` with no arguments: split at runs of whitespace, discarding
empty pieces (so leading/trailing whitespace yields no empty words). -/
def pySplit (s : String) : List String :=
  pySplitAux s.data []

/-- Substring containment on character lists: `needle` is a contiguous
infix of `haystack`. -/
def listContains (needle : List Char) : List Char → Bool
  | [] => needle.isEmpty
  | c :: cs => needle.isPrefixOf (c :: cs) || listContains needle cs

/-- `needle in haystack` on Python strings: substring containment. -/
def pyInStr (needle haystack : String) : Bool :=
  listContains needle.data haystack.data

/-- The character classes appearing in the source's patterns. -/
inductive RCls where
  | word   -- the class of `\w`
  | space  -- the class of `\s`
deriving DecidableEq

/-- Membership in a character class. -/
def RCls.mem : RCls → Char → Bool
  | .word, c => isWordChar c
  | .space, c => isPySpace c

/-- Regex tokens: the constructs used by the source's thirteen patterns.
A pattern is a token sequence. `plus cls cap` is a greedy `+` over a class,
capturing the consumed text as a group when `cap` is true (`(\w+)` vs `\s+`). -/
inductive RTok where
  | lit (s : String)            -- a literal run of characters
  | wordB                       -- the zero-width boundary `\b`
  | plus (cls : RCls) (cap : Bool)
  | endA                        -- the anchor `$`
deriving DecidableEq

/-- Replacement template tokens: literal text or a group reference `\n`. -/
inductive RepTok where
  | lit (s : String)
  | ref (n : Nat)
deriving DecidableEq

/-- Is the character (if any) a word character?  Used for `\b`: string edges
count as non-word. -/
def isWordAt : Option Char → Bool
  | none => false
  | some c => isWordChar c

/-- `\b` holds between `prev` and the head of `s` iff exactly one side is a
word character (string edges are non-word). -/
def atBoundary (prev : Option Char) (s : List Char) : Bool :=
  isWordAt prev != isWordAt s.head?

/-- `$` (no MULTILINE): end of string, or just before a final newline. -/
def atEnd (s : List Char) : Bool :=
  s = [] || s = ['\n']

/-- Backtracking matcher for a token sequence against `s`, with `prev` the
character just before the current position in the subject string (for `\b`).
Returns the unconsumed suffix and the captured groups in order.  Greedy `+`
tries the longest run of class characters first and backtracks one character
at a time, exactly as the Python engine does on these patterns.  The `fuel`
argument only makes the recursion structural (so the kernel can evaluate it):
every step discharges one token, so any fuel above the token count — the
wrapper `matchToks` passes `toks.length + 1` — never reaches the `0` case. -/
def matchToksF : Nat → List RTok → Option Char → List Char →
    Option (List Char × List String)
  | 0, _, _, _ => none
  | fuel + 1, toks, prev, s =>
    match toks with
    | [] => some (s, [])
    | RTok.lit l :: ts =>
      if l.data.isPrefixOf s then
        matchToksF fuel ts (if l.data.isEmpty then prev else l.data.getLast?)
          (s.drop l.length)
      else none
    | RTok.wordB :: ts =>
      if atBoundary prev s then matchToksF fuel ts prev s else none
    | RTok.endA :: ts =>
      if atEnd s then matchToksF fuel ts prev s else none
    | RTok.plus cls cap :: ts =>
      (List.range (s.takeWhile cls.mem).length).reverse.findSome? fun j =>
        match matchToksF fuel ts ((s.take (j + 1)).getLast?) (s.drop (j + 1)) with
        | some (rem, gs) =>
          some (rem, if cap then String.mk (s.take (j + 1)) :: gs else gs)
        | none => none

/-- Match a token sequence at the current position (see `matchToksF`). -/
def matchToks (toks : List RTok) (prev : Option Char) (s : List Char) :
    Option (List Char × List String) :=
  matchToksF (toks.length + 1) toks prev s

/-- Expand a replacement template with the captured groups (1-based `\n`). -/
def expandRep (tmpl : List RepTok) (gs : List String) : List Char :=
  tmpl.foldr
    (fun t acc =>
      (match t with
       | RepTok.lit l => l.data
       | RepTok.ref n => (gs.getD (n - 1) "").data) ++ acc)
    []

/-- The scanning loop of `re.sub`: walk the subject left to right, at each
position try the pattern; on a match emit the expanded replacement and resume
after the matched text (tracking the original string's character before the
resume point, since lookarounds see the original subject, not the
replacement); otherwise copy one character.  None of the source's patterns can
match the empty string (each contains a nonempty literal or a `+`), so the
zero-width case conservatively copies one character.  The `fuel` argument only
makes the recursion structural: every step consumes at least one subject
character, so any fuel above the subject length — the wrapper `reSub` passes
`s.length + 1` — never reaches the `0` case. -/
def subScanF (pat : List RTok) (tmpl : List RepTok) :
    Nat → Option Char → List Char → List Char
  | 0, _, s => s
  | fuel + 1, prev, s =>
    match s with
    | [] => []
    | c :: cs =>
      match matchToks pat prev (c :: cs) with
      | some (rem, gs) =>
        if (c :: cs).length - rem.length = 0 then
          c :: subScanF pat tmpl fuel (some c) cs
        else
          expandRep tmpl gs ++
            subScanF pat tmpl fuel
              (((c :: cs).take ((c :: cs).length - rem.length)).getLast?) rem
      | none => c :: subScanF pat tmpl fuel (some c) cs

/-- `re.sub(pattern, replacement, s)` for the embedded pattern language. -/
def reSub (pat : List RTok) (tmpl : List RepTok) (s : String) : String :=
  String.mk (subScanF pat tmpl (s.length + 1) none s.data)

/-- The ordered rewrite table of `apply_smart_corrections`, transcribed rule
by rule from the source's `corrections` dict (Python dicts iterate in
insertion order).  The `re.IGNORECASE` flag the source passes is semantically
inert for these patterns: none of them contains a cased literal, and the flag
does not change `\w`/`\s`. -/
def corrections : List (List RTok × List RepTok) :=
  [ ([RTok.wordB, RTok.lit "えと", RTok.wordB], [RepTok.lit "えっと"]),
    ([RTok.wordB, RTok.lit "あの", RTok.wordB], [RepTok.lit "あの"]),
    ([RTok.wordB, RTok.lit "それで", RTok.wordB], [RepTok.lit "それで"]),
    ([RTok.wordB, RTok.lit "ですね", RTok.wordB], [RepTok.lit "ですね"]),
    ([RTok.wordB, RTok.lit "そうですね", RTok.wordB], [RepTok.lit "そうですね"]),
    ([RTok.plus .word true, RTok.lit "ですが", RTok.plus .word true],
      [RepTok.ref 1, RepTok.lit "ですが、", RepTok.ref 2]),
    ([RTok.plus .word true, RTok.lit "ので", RTok.plus .word true],
      [RepTok.ref 1, RepTok.lit "ので、", RepTok.ref 2]),
    ([RTok.plus .word true, RTok.lit "けど", RTok.plus .word true],
      [RepTok.ref 1, RepTok.lit "けど、", RepTok.ref 2]),
    ([RTok.plus .word true, RTok.lit "って", RTok.plus .word true],
      [RepTok.ref 1, RepTok.lit "って、", RepTok.ref 2]),
    ([RTok.lit "だし", RTok.endA], [RepTok.lit "です。"]),
    ([RTok.lit "だよ", RTok.endA], [RepTok.lit "です。"]),
    ([RTok.lit "だね", RTok.endA], [RepTok.lit "ですね。"]),
    ([RTok.plus .space false], [RepTok.lit " "]) ]

/-- `apply_smart_corrections(text)`: empty (falsy) text is returned as is;
otherwise every rule of the table is applied in order by `re.sub`, each rule
operating on the previous rule's output, and the result is stripped. -/
def apply_smart_corrections (text : String) : String :=
  if text = "" then text
  else pyStrip (corrections.foldl (fun t pr => reSub pr.1 pr.2 t) text)

/-- A numpy float value: `none` marks a non-finite result (NaN/Inf).  Under
numpy's default error state, float division by zero emits a warning and
produces NaN/Inf; it does not raise an exception. -/
abbrev NFloat := Option ℚ

/-- Addition on numpy floats: non-finite absorbs. -/
def nfAdd : NFloat → NFloat → NFloat
  | some a, some b => some (a + b)
  | _, _ => none

/-- `np.max` over a list (numpy raises `ValueError` on an empty array; the
empty case is guarded at the call site in `enhance_audio_quality`). -/
def npMax : List ℚ → ℚ
  | [] => 0
  | x :: xs => xs.foldl max x

/-- The amplitude-normalization step of `enhance_audio_quality`:
`enhanced_audio / np.max(np.abs(enhanced_audio))`.  The division is
unconditional; when the peak is zero every sample is divided by zero and
becomes non-finite (`none`). -/
def normalizeStep (e : List ℚ) : List NFloat :=
  let peak := npMax (e.map fun x => |x|)
  e.map fun x => if peak = 0 then none else some (x / peak)

/-- `np.convolve(a, np.ones(3)/3, mode="same")`: the centered 3-sample moving
average with zero padding at the edges; a non-finite sample contaminates every
window containing it. -/
def convolve3 (a : List NFloat) : List NFloat :=
  (List.range a.length).map fun i =>
    (nfAdd (nfAdd (if i = 0 then some 0 else a.getD (i - 1) (some 0))
        (a.getD i (some 0))) (a.getD (i + 1) (some 0))).map fun x => x / 3

/-- `enhance_audio_quality(audio_data, sample_rate)`.  The external call
`nr.reduce_noise` is a parameter; `reduce_noise audio_data = none` models it
raising, which the bare `except` turns into returning `audio_data` unchanged.
`np.max` on an empty reduced signal likewise raises (`ValueError`), taking the
same fallback.  The sample-rate argument only feeds `reduce_noise` and is not
modelled. -/
def enhance_audio_quality (reduce_noise : List ℚ → Option (List ℚ))
    (audio_data : List ℚ) : List NFloat :=
  match reduce_noise audio_data with
  | none => audio_data.map some
  | some e =>
    if e.isEmpty then audio_data.map some
    else convolve3 (normalizeStep e)

/-- The decoding-options record built by `optimize_whisper_options`.
`word_timestamps = none` models the key being absent from the dict. -/
structure WhisperOptions where
  language : Option String
  verbose : Bool
  fp16 : Bool
  condition_on_previous_text : Bool
  temperature : ℚ
  compression_ratio_threshold : ℚ
  logprob_threshold : ℚ
  no_speech_threshold : ℚ
  beam_size : Nat
  word_timestamps : Option Bool
deriving DecidableEq

/-- `optimize_whisper_options(language, enable_timestamps)`. -/
def optimize_whisper_options (language : String) (enable_timestamps : Bool) :
    WhisperOptions :=
  { language := if language = "auto" then none else some language,
    verbose := false,
    fp16 := false,
    condition_on_previous_text := true,
    temperature := 0,
    compression_ratio_threshold := 2.4,
    logprob_threshold := -1,
    no_speech_threshold := 0.6,
    beam_size := 5,
    word_timestamps := if enable_timestamps then some true else none }

/-- A whisper segment dict; the field `stop` models the dict key `end`,
which is a Lean keyword. -/
structure Segment where
  start : ℚ
  stop : ℚ
  text : String
deriving DecidableEq

/-- The raw whisper result dict.  Each field is optional because the source
reads it with `result.get(key, default)` (or guards with `key in result`);
`none` models the key being absent. -/
structure RawResult where
  text : Option String
  language : Option String
  no_speech_prob : Option ℚ
  segments : Option (List Segment)
deriving DecidableEq

/-- `calculate_quality_score(result)`: base score `(1.0 - no_speech_prob) *
100` (with `no_speech_prob` defaulting to `1.0` when absent), `+10` when the
text is longer than 10 characters, `+5` when it contains `。` or `、`, `+5`
when it splits into more than 5 words, clamped to `[0, 100]`.  The `except`
arm returning `50` is unreachable for a well-typed result dict, which this
record type guarantees, so the function is total here. -/
def calculate_quality_score (result : RawResult) : ℚ :=
  let text := result.text.getD ""
  let no_speech_prob := result.no_speech_prob.getD 1
  let base0 := (1 - no_speech_prob) * 100
  let base1 := if text.length > 10 then base0 + 10 else base0
  let base2 := if pyInStr "。" text || pyInStr "、" text then base1 + 5 else base1
  let base3 := if (pySplit text).length > 5 then base2 + 5 else base2
  min 100 (max 0 base3)

/-- The aggregated result dict built at the end of `transcribe_audio_ultra`.
The wall-clock fields `processing_time` and `timestamp` are not modelled. -/
structure TranscriptionResult where
  text : String
  original_text : String
  language : String
  model_used : String
  char_count : Nat
  word_count : Nat
  confidence : ℚ
  quality_score : ℚ
  enhanced : Bool
deriving DecidableEq

/-- The result-aggregation block of `transcribe_audio_ultra` (construction of
`transcription_result` from the raw engine result). -/
def buildResult (result : RawResult) : TranscriptionResult :=
  let original_text := pyStrip (result.text.getD "")
  let enhanced_text := apply_smart_corrections original_text
  { text := enhanced_text,
    original_text := original_text,
    language := result.language.getD "unknown",
    model_used := "base (超軽量・高精度版)",
    char_count := enhanced_text.length,
    word_count := (pySplit enhanced_text).length,
    confidence := 1 - result.no_speech_prob.getD 0,
    quality_score := calculate_quality_score result,
    enhanced := enhanced_text != original_text }

/-- Which audio the engine call receives: the original uploaded/recorded file,
or the enhanced waveform written to the `_enhanced.wav` temp file. -/
inductive AudioUsed where
  | original
  | enhanced (w : List NFloat)
deriving DecidableEq

/-- The audio-enhancement block of `transcribe_audio_ultra` (the inner
`try`).  `decode = none` models `librosa.load` raising (`except`: keep the
original file); a decoded-but-empty waveform skips enhancement (the
`len(audio_data) > 0` guard); `save_ok = false` models `sf.write` raising
after a successful enhancement (`except`: keep the original file). -/
def enhancementStage (decode : Option (List ℚ))
    (reduce_noise : List ℚ → Option (List ℚ)) (save_ok : Bool) : AudioUsed :=
  match decode with
  | none => AudioUsed.original
  | some audio_data =>
    if audio_data.length > 0 then
      if save_ok then AudioUsed.enhanced (enhance_audio_quality reduce_noise audio_data)
      else AudioUsed.original
    else AudioUsed.original

/-- `transcribe_audio_ultra(audio_file, language, enable_timestamps)`.
`model_loaded = false` models `load_optimized_model()` returning `None`
(early return `None, None, None`); `engine` models `model.transcribe` on the
chosen audio with the built options, `none` meaning it raised, which the outer
`except` turns into the `None, None, None` failure return.  On success the
source returns the aggregated dict, the segment list (only when timestamps
are enabled and the key is present), and the quality score.  The
`is_recording` flag only picks the temp-file extension and is not modelled. -/
def transcribe_audio_ultra (model_loaded : Bool) (decode : Option (List ℚ))
    (reduce_noise : List ℚ → Option (List ℚ)) (save_ok : Bool)
    (engine : AudioUsed → WhisperOptions → Option RawResult)
    (language : String) (enable_timestamps : Bool) :
    Option (TranscriptionResult × Option (List Segment) × ℚ) :=
  if model_loaded = false then none
  else
    match engine (enhancementStage decode reduce_noise save_ok)
        (optimize_whisper_options language enable_timestamps) with
    | none => none
    | some result =>
      let transcription_result := buildResult result
      let segments := if enable_timestamps then result.segments else none
      some (transcription_result, segments, transcription_result.quality_score)

/-- The quality scorer as the claim words it (for comparison with the source's
`calculate_quality_score`): `100 × (1 − p)`, `+10` if the length exceeds the
minimum character threshold, `+5` if any sentence-ending punctuation is
present, `+5` if the word count exceeds the minimum threshold, clamped to
`[0, 100]`.  Sentence-ending punctuation: the Japanese and ASCII sentence
terminators.  The enumeration comma `、` is deliberately not one: it does not
end a sentence. -/
def isSentenceEndingPunct (c : Char) : Bool :=
  c = '。' || c = '！' || c = '？' || c = '.' || c = '!' || c = '?'

/-- The claim-side quality score (see `isSentenceEndingPunct`). -/
def calculate_quality_score_claimed (text : String) (p : ℚ) : ℚ :=
  min 100 (max 0 ((1 - p) * 100 +
    (if text.length > 10 then 10 else 0) +
    (if text.data.any isSentenceEndingPunct then 5 else 0) +
    (if (pySplit text).length > 5 then 5 else 0)))

/-- C1: the post-processor is not idempotent.  On `"aのでbのでc"` the first
application turns the second clause marker into `"aのでbので、c"` (the regex
scan resumes after the first replacement); the second application then finds
the first clause marker — `(\w+)ので(\w+)` now matches with the shorter
group `"a"` because `、` is no longer a word character — and inserts another
comma, yielding `"aので、bので、c"`.  Applying the full ordered rule sequence
to its own output changes the text again, violating the idempotence contract
the specification declares a required property. -/
theorem apply_smart_corrections_not_idempotent :
    apply_smart_corrections "aのでbのでc" = "aのでbので、c" ∧
    apply_smart_corrections (apply_smart_corrections "aのでbのでc") =
      "aので、bので、c" ∧
    apply_smart_corrections (apply_smart_corrections "aのでbのでc") ≠
      apply_smart_corrections "aのでbのでc" :=
  ⟨by decide, by decide, by decide⟩

/-- C2 counterexample: on the all-silent waveform `[0, 0]` the peak absolute
value is zero, yet the normalization step is not skipped: every sample is
divided by the zero peak and becomes non-finite (`none`, modelling NaN), and
`enhance_audio_quality` (with a noise reduction that returns its input
unchanged) propagates the non-finite samples instead of returning the
waveform untouched.  So the normalization is not skipped on a zero peak, and
the function does divide by zero. -/
theorem enhance_zero_peak_cex :
    normalizeStep [0, 0] = [none, none] ∧
    enhance_audio_quality (fun a => some a) [0, 0] ≠ [0, 0].map some := by
  constructor
  · simp [normalizeStep, npMax]
  · simp [enhance_audio_quality, normalizeStep, npMax, convolve3,
      List.range_succ, nfAdd]

/-- C2 (amended): amplitude normalization divides every sample by the peak
absolute value unconditionally.  When the peak is nonzero this is the
intended scaling; when the peak is zero the division is performed anyway and
every sample becomes non-finite. -/
theorem amplitude_normalization_unconditional (e : List ℚ) :
    (npMax (e.map fun x => |x|) = 0 →
      normalizeStep e = e.map fun _ => none) ∧
    (npMax (e.map fun x => |x|) ≠ 0 →
      normalizeStep e = e.map fun x => some (x / npMax (e.map fun y => |y|))) := by
  constructor <;> intro h <;> simp [normalizeStep, h]

/-- C2 witness: the amended theorem applied to the silent waveform `[0, 0]`. -/
theorem amplitude_normalization_unconditional_witness :
    normalizeStep [0, 0] = [0, 0].map fun _ => none :=
  (amplitude_normalization_unconditional [0, 0]).1 (by norm_num [npMax])

/-- C3: if noise reduction raises for the decoded waveform, the enhancement
stage returns the pre-enhancement decoded waveform exactly, and the overall
request still succeeds; more generally the request's success or failure is
decided solely by the engine call — every exception combination in the
enhancement chain (decode failure, noise-reduction failure, write failure)
still reaches the engine. -/
theorem enhancement_exception_fallback (audio : List ℚ)
    (reduce_noise : List ℚ → Option (List ℚ)) (h : reduce_noise audio = none)
    (save_ok : Bool) (engine : AudioUsed → WhisperOptions → Option RawResult)
    (language : String) (ts : Bool) (r : RawResult)
    (heng : engine (enhancementStage (some audio) reduce_noise save_ok)
      (optimize_whisper_options language ts) = some r) :
    enhance_audio_quality reduce_noise audio = audio.map some ∧
    (transcribe_audio_ultra true (some audio) reduce_noise save_ok engine
      language ts).isSome ∧
    (∀ (decode : Option (List ℚ)) (rn : List ℚ → Option (List ℚ))
      (save : Bool),
      (transcribe_audio_ultra true decode rn save engine language ts).isSome =
        (engine (enhancementStage decode rn save)
          (optimize_whisper_options language ts)).isSome) := by
  refine ⟨by simp [enhance_audio_quality, h], ?_, ?_⟩
  · simp [transcribe_audio_ultra, heng]
  · intro decode rn save
    unfold transcribe_audio_ultra
    cases hE : engine (enhancementStage decode rn save)
        (optimize_whisper_options language ts) <;> simp [hE]

/-- C3 witness: a noise reduction that always raises, on the decoded waveform
`[1]`, with an engine that succeeds: the enhancement stage hands back the
decoded waveform unchanged and the request succeeds. -/
theorem enhancement_exception_fallback_witness :
    enhance_audio_quality (fun _ => none) [1] = [1].map some ∧
    (transcribe_audio_ultra true (some [1]) (fun _ => none) true
      (fun _ _ => some ⟨some "a", none, some 0, none⟩) "auto" true).isSome :=
  ⟨(enhancement_exception_fallback [1] (fun _ => none) rfl true
      (fun _ _ => some ⟨some "a", none, some 0, none⟩) "auto" true
      ⟨some "a", none, some 0, none⟩ rfl).1,
    (enhancement_exception_fallback [1] (fun _ => none) rfl true
      (fun _ _ => some ⟨some "a", none, some 0, none⟩) "auto" true
      ⟨some "a", none, some 0, none⟩ rfl).2.1⟩

/-- C4 counterexample: for the engine result with text `"、"` (a lone
enumeration comma — not sentence-ending punctuation) and no-speech
probability `1/2`, the source awards the punctuation bonus and returns `55`,
while the formula of the claim (`+5` only for sentence-ending punctuation)
yields `50`. -/
theorem quality_score_comma_cex :
    calculate_quality_score ⟨some "、", none, some (1/2), none⟩ = 55 ∧
    calculate_quality_score_claimed "、" (1/2) = 50 ∧
    calculate_quality_score ⟨some "、", none, some (1/2), none⟩ ≠
      calculate_quality_score_claimed "、" (1/2) := by
  have h1 : pyInStr "。" "、" = false := by decide
  have h2 : pyInStr "、" "、" = true := by decide
  have h3 : ("、" : String).length = 1 := by decide
  have h4 : (pySplit "、").length = 1 := by decide
  have h5 : ("、" : String).data.any isSentenceEndingPunct = false := by decide
  refine ⟨?_, ?_, ?_⟩
  · simp [calculate_quality_score, h1, h2, h3, h4]
    norm_num
  · simp [calculate_quality_score_claimed, h3, h4, h5]
    norm_num
  · simp [calculate_quality_score, calculate_quality_score_claimed,
      h1, h2, h3, h4, h5]
    norm_num

/-- C4 (amended): for every engine result with text `t` and no-speech
probability `p`, the quality scorer returns `100 × (1 − p)`, plus 10 if the
length of `t` exceeds 10 characters, plus 5 if `t` contains the Japanese full
stop `。` or the Japanese enumeration comma `、` (so the bonus also fires on a
comma, not only on sentence-ending punctuation), plus 5 if the word count of
`t` exceeds 5, clamped to `[0, 100]`. -/
theorem calculate_quality_score_closed_form (t : String) (lang : Option String)
    (p : ℚ) (segs : Option (List Segment)) :
    calculate_quality_score ⟨some t, lang, some p, segs⟩ =
      min 100 (max 0 ((1 - p) * 100 +
        (if t.length > 10 then 10 else 0) +
        (if pyInStr "。" t || pyInStr "、" t then 5 else 0) +
        (if (pySplit t).length > 5 then 5 else 0))) := by
  simp only [calculate_quality_score, Option.getD_some]
  split_ifs <;> exact congrArg (fun z => min 100 (max 0 z)) (by ring)

/-- C5: the aggregated result satisfies: confidence is one minus the
engine-reported no-speech probability, char count is the length of the
post-processed text, word count is its number of whitespace-separated words,
the `enhanced` flag holds exactly when the post-processed text differs from
the original, and the result's text is `apply_smart_corrections` of the
stripped engine text. -/
theorem aggregate_result_fields (r : RawResult) (p : ℚ)
    (hp : r.no_speech_prob = some p) :
    (buildResult r).confidence = 1 - p ∧
    (buildResult r).char_count = (buildResult r).text.length ∧
    (buildResult r).word_count = (pySplit (buildResult r).text).length ∧
    ((buildResult r).enhanced = true ↔
      (buildResult r).text ≠ (buildResult r).original_text) ∧
    (buildResult r).text = apply_smart_corrections (buildResult r).original_text := by
  unfold buildResult
  rw [hp]
  exact ⟨rfl, rfl, rfl, bne_iff_ne, rfl⟩

/-- C5 witness: the aggregation invariants at the spec's end-to-end example,
engine text `"えと　それで"` with no-speech probability `1/10`. -/
theorem aggregate_result_fields_witness :
    (buildResult ⟨some "えと　それで", some "ja", some (1/10), none⟩).confidence
        = 1 - 1/10 ∧
    (buildResult ⟨some "えと　それで", some "ja", some (1/10), none⟩).char_count =
      (buildResult ⟨some "えと　それで", some "ja", some (1/10), none⟩).text.length ∧
    (buildResult ⟨some "えと　それで", some "ja", some (1/10), none⟩).word_count =
      (pySplit (buildResult ⟨some "えと　それで", some "ja", some (1/10), none⟩).text).length ∧
    ((buildResult ⟨some "えと　それで", some "ja", some (1/10), none⟩).enhanced = true ↔
      (buildResult ⟨some "えと　それで", some "ja", some (1/10), none⟩).text ≠
        (buildResult ⟨some "えと　それで", some "ja", some (1/10), none⟩).original_text) ∧
    (buildResult ⟨some "えと　それで", some "ja", some (1/10), none⟩).text =
      apply_smart_corrections
        (buildResult ⟨some "えと　それで", some "ja", some (1/10), none⟩).original_text :=
  aggregate_result_fields ⟨some "えと　それで", some "ja", some (1/10), none⟩ (1/10) rfl

/-- C6: the quality score is non-decreasing as the no-speech probability
decreases, all else (text, language, segments) equal. -/
theorem quality_score_monotone (t : Option String) (lang : Option String)
    (segs : Option (List Segment)) (p1 p2 : ℚ) (h : p2 ≤ p1) :
    calculate_quality_score ⟨t, lang, some p1, segs⟩ ≤
      calculate_quality_score ⟨t, lang, some p2, segs⟩ := by
  simp only [calculate_quality_score, Option.getD_some]
  split_ifs <;>
    exact min_le_min le_rfl (max_le_max le_rfl (by linarith))

/-- C6 witness: the monotonicity theorem at text `""`, `p1 = 1 ≥ p2 = 0`. -/
theorem quality_score_monotone_witness :
    calculate_quality_score ⟨some "", none, some 1, none⟩ ≤
      calculate_quality_score ⟨some "", none, some 0, none⟩ :=
  quality_score_monotone (some "") none none 1 0 (by norm_num)

/-- C7: for every language hint and timestamps flag, the options builder
returns deterministic decoding (temperature 0), half precision disabled,
fixed tuning constants (beam size 5, compression-ratio threshold 2.4,
log-probability threshold −1, no-speech threshold 0.6), a null language
exactly when the hint is `"auto"`, and word-level timestamps included exactly
when timestamps are enabled. -/
theorem optimize_whisper_options_spec (language : String) (ts : Bool) :
    (optimize_whisper_options language ts).temperature = 0 ∧
    (optimize_whisper_options language ts).fp16 = false ∧
    (optimize_whisper_options language ts).beam_size = 5 ∧
    (optimize_whisper_options language ts).compression_ratio_threshold = 2.4 ∧
    (optimize_whisper_options language ts).logprob_threshold = -1 ∧
    (optimize_whisper_options language ts).no_speech_threshold = 0.6 ∧
    ((optimize_whisper_options language ts).language = none ↔
      language = "auto") ∧
    ((optimize_whisper_options language ts).word_timestamps = some true ↔
      ts = true) ∧
    ((optimize_whisper_options language ts).word_timestamps = none ↔
      ts = false) := by
  refine ⟨rfl, rfl, rfl, rfl, rfl, rfl, ?_, ?_, ?_⟩
  · by_cases hl : language = "auto" <;> simp [optimize_whisper_options, hl]
  · cases ts <;> simp [optimize_whisper_options]
  · cases ts <;> simp [optimize_whisper_options]

/-- C8: with the model loaded, the request fails (returns the `None` triple,
the source's error surface) exactly when the engine call raises, and on engine
success it returns the complete aggregated triple — never a partial result.
The request either fully succeeds or fully fails. -/
theorem transcribe_fails_iff_engine_fails (decode : Option (List ℚ))
    (rn : List ℚ → Option (List ℚ)) (save : Bool)
    (engine : AudioUsed → WhisperOptions → Option RawResult)
    (language : String) (ts : Bool) :
    (transcribe_audio_ultra true decode rn save engine language ts = none ↔
      engine (enhancementStage decode rn save)
        (optimize_whisper_options language ts) = none) ∧
    (∀ r : RawResult,
      engine (enhancementStage decode rn save)
        (optimize_whisper_options language ts) = some r →
      transcribe_audio_ultra true decode rn save engine language ts =
        some (buildResult r, if ts then r.segments else none,
          (buildResult r).quality_score)) := by
  constructor
  · unfold transcribe_audio_ultra
    cases hE : engine (enhancementStage decode rn save)
        (optimize_whisper_options language ts) <;> simp [hE]
  · intro r hr
    unfold transcribe_audio_ultra
    simp [hr]

/-- C9: the quality score of the aggregated result is computed from the raw
engine result (its `text` field), not from the post-processed text, while the
char and word counts are computed from the post-processed text.  Concretely,
for raw text `"xのでy"` with no-speech probability `1/2` the pipeline reports
score `50`, although the post-processed text `"xので、y"` — which gains a
comma from `apply_smart_corrections` — would have scored `55`. -/
theorem quality_score_from_raw_text :
    (∀ r : RawResult,
      (buildResult r).quality_score = calculate_quality_score r ∧
      (buildResult r).char_count =
        (apply_smart_corrections (pyStrip (r.text.getD ""))).length ∧
      (buildResult r).word_count =
        (pySplit (apply_smart_corrections (pyStrip (r.text.getD "")))).length) ∧
    apply_smart_corrections "xのでy" = "xので、y" ∧
    (buildResult ⟨some "xのでy", none, some (1/2), none⟩).quality_score = 50 ∧
    calculate_quality_score ⟨some "xので、y", none, some (1/2), none⟩ = 55 := by
  refine ⟨fun r => ⟨rfl, rfl, rfl⟩, by decide, ?_, ?_⟩
  · show calculate_quality_score ⟨some "xのでy", none, some (1/2), none⟩ = 50
    have h1 : pyInStr "。" "xのでy" = false := by decide
    have h2 : pyInStr "、" "xのでy" = false := by decide
    have h3 : ("xのでy" : String).length = 4 := by decide
    have h4 : (pySplit "xのでy").length = 1 := by decide
    simp [calculate_quality_score, h1, h2, h3, h4]
    norm_num
  · have h1 : pyInStr "。" "xので、y" = false := by decide
    have h2 : pyInStr "、" "xので、y" = true := by decide
    have h3 : ("xので、y" : String).length = 5 := by decide
    have h4 : (pySplit "xので、y").length = 1 := by decide
    simp [calculate_quality_score, h1, h2, h3, h4]
    norm_num

/-- C10: when the engine result lacks a `no_speech_prob` field, the
aggregation defaults it to `0` so the reported confidence is the maximal `1`,
while the quality scorer defaults it to `1` so its base score is `0`: the
score equals the score of the same result with probability `1`, hence at most
the `20` points of text bonuses. -/
theorem missing_no_speech_prob_inconsistent (r : RawResult)
    (h : r.no_speech_prob = none) :
    (buildResult r).confidence = 1 ∧
    calculate_quality_score r =
      calculate_quality_score { r with no_speech_prob := some 1 } ∧
    calculate_quality_score r ≤ 20 := by
  refine ⟨?_, ?_, ?_⟩
  · unfold buildResult
    rw [h]
    norm_num
  · unfold calculate_quality_score
    rw [h]
    rfl
  · simp only [calculate_quality_score, h, Option.getD_none]
    split_ifs <;>
      exact le_trans (min_le_right _ _)
        (max_le (by norm_num) (by norm_num))

/-- C10 witness: the inconsistency at a result with empty text and no
`no_speech_prob` key. -/
theorem missing_no_speech_prob_inconsistent_witness :
    (buildResult ⟨some "", none, none, none⟩).confidence = 1 ∧
    calculate_quality_score ⟨some "", none, none, none⟩ =
      calculate_quality_score
        { (⟨some "", none, none, none⟩ : RawResult) with
          no_speech_prob := some 1 } ∧
    calculate_quality_score ⟨some "", none, none, none⟩ ≤ 20 :=
  missing_no_speech_prob_inconsistent ⟨some "", none, none, none⟩ rfl

/-- C8 witness: an engine that raises on every input makes the request return
the failure triple, at concrete pipeline inputs. -/
theorem transcribe_fails_iff_engine_fails_witness :
    transcribe_audio_ultra true none (fun _ => none) true
      (fun _ _ => none) "auto" true = none :=
  (transcribe_fails_iff_engine_fails none (fun _ => none) true
    (fun _ _ => none) "auto" true).1.mpr rfl
